import Mathlib

/-!
Shallow embedding of the persisted timer scheduler of `src/index.js`
(AutoZoo Discord bot).  Times are JS millisecond timestamps, modelled as
`Int`; the wall clock `Date.now()` is passed explicitly as a `now`
parameter.  Redis is modelled as in-process association lists:
`records` models the `timer:<channelId>:<timerType>` string keys,
`queue` models the `timers:queue` sorted set (member ↦ score),
`retries` models the `retry:<channelId>:<timerType>` counter keys
(key prefixes make the three keyspaces disjoint in Redis, so separate
fields are faithful).  `pending` models retries scheduled with
`setTimeout`, `attempts` logs every `channel.send` call and `sent`
the successful ones, so that delivery behaviour is observable.
-/

-- ----------------- Constants (src/index.js lines 48-51) -----------------

def CARD_PULL_DEFAULT_HOURS_x2 : Nat := 23  -- 11.5 hours, kept as twice the value to stay integral

def TIMER_CHECK_INTERVAL : Int := 10000

def MAX_RETRY_ATTEMPTS : Nat := 3

def RETRY_DELAY : Int := 5000

-- ----------------- Messages (src/index.js lines 60-67) -----------------

namespace MESSAGES

def rescueReady : String := "🐾 Your rescue is ready!"

def cardPullReady : String := "🎴 Next Card Pull is ready!"

def rescueSet (time : String) : String := "🐾 Next Rescue timer set for " ++ time

def cardPullSet (time : String) : String := "🎴 Next Card Pull timer set for " ++ time

end MESSAGES

-- ----------------- JS value modelling -----------------

/-- The JSON record stored under a `timer:` key by `setTimerInRedis`. -/
structure TimerData where
  targetTime : Int
  setAt : Int
  channelId : String
  timerType : String
deriving DecidableEq, Repr

/-- A string value stored under a `timer:` key, classified by how
`JSON.parse` treats it.  `record d` is a serialized `TimerData` object;
`jsonNoTarget` is a string that parses as JSON but whose value has no
`targetTime` property (a number, a string, or some other object — JSON
`null`/`false` literals are not modelled, they do not arise);
`nonJson s` is a string `JSON.parse` rejects. -/
inductive StoredCell where
  | record (d : TimerData)
  | jsonNoTarget
  | nonJson (s : String)
deriving DecidableEq, Repr

/-- Result of `getTimerFromRedis` seen as a JS value: the stored key can be
missing (`null` return → `absent`), the parsed JSON can lack `targetTime`
(`undefined` → `undef`), the legacy `parseInt` fallback can produce `NaN`
(`nan`), or a number is returned. -/
inductive GetNum where
  | absent
  | undef
  | nan
  | num (n : Int)
deriving DecidableEq, Repr

/-- Split a character list at every occurrence of `sep`, the char-level
meaning of the JS `str.split(sep)` for a one-character separator. -/
def splitOnChar (sep : Char) : List Char → List (List Char)
  | [] => [[]]
  | c :: rest =>
    match splitOnChar sep rest with
    | [] => if c = sep then [[], []] else [[c]]
    | g :: gs => if c = sep then [] :: g :: gs else (c :: g) :: gs

/-- Drop leading and trailing whitespace, the char-level meaning of the JS
`str.trim()`. -/
def jsTrim (cs : List Char) : List Char :=
  ((cs.dropWhile Char.isWhitespace).reverse.dropWhile Char.isWhitespace).reverse

/-- Models the JS `str.toLowerCase()` (ASCII-accurate, which covers every
string this program lowercases). -/
def jsToLower (s : String) : String :=
  String.mk (s.data.map Char.toLower)

/-- JS `parseInt(s, 10)`: skip leading whitespace, optional sign, then a
maximal run of decimal digits; `NaN` (here `none`) when no digit is found. -/
def jsParseInt (s : String) : Option Int :=
  let cs := s.data.dropWhile Char.isWhitespace
  let signed : Bool × List Char :=
    match cs with
    | '-' :: rest => (true, rest)
    | '+' :: rest => (false, rest)
    | _ => (false, cs)
  let digits := signed.2.takeWhile Char.isDigit
  if digits.isEmpty then none
  else
    let n : Nat := digits.foldl (fun a c => a * 10 + (c.toNat - '0'.toNat)) 0
    some (if signed.1 then -(n : Int) else (n : Int))

-- ----------------- Association-list Redis primitives -----------------

/-- Lookup in an association list keyed by `(channelId, timerType)`. -/
def getA {β : Type} : List ((String × String) × β) → (String × String) → Option β
  | [], _ => none
  | e :: t, k => if e.1 = k then some e.2 else getA t k

/-- Delete a key (models `redis.del`). -/
def delA {β : Type} (l : List ((String × String) × β)) (k : String × String) :
    List ((String × String) × β) :=
  l.filter (fun e => decide (e.1 ≠ k))

/-- Overwrite a key (models `redis.set`). -/
def setA {β : Type} (l : List ((String × String) × β)) (k : String × String) (v : β) :
    List ((String × String) × β) :=
  delA l k ++ [(k, v)]

/-- The member string `${channelId}:${timerType}` used in the
`timers:queue` sorted set. -/
def memberKey (channelId timerType : String) : String :=
  channelId ++ ":" ++ timerType

/-- Models `redis.zadd`: a sorted set holds at most one score per member, adding an
existing member replaces its score. -/
def zadd (q : List (String × Int)) (score : Int) (member : String) :
    List (String × Int) :=
  q.filter (fun e => decide (e.1 ≠ member)) ++ [(member, score)]

/-- Models `redis.zrem`. -/
def zrem (q : List (String × Int)) (member : String) : List (String × Int) :=
  q.filter (fun e => decide (e.1 ≠ member))

-- Redis sorted sets order members with equal scores by byte-wise
-- lexicographic comparison of the member string (memcmp); `listCharLeb`
-- models that on the codepoint sequences.

def listCharLeb : List Char → List Char → Bool
  | [], _ => true
  | _ :: _, [] => false
  | a :: as, b :: bs =>
    if a.val.toNat < b.val.toNat then true
    else if b.val.toNat < a.val.toNat then false
    else listCharLeb as bs

/-- The order in which a Redis sorted set stores its entries:
by score, ties broken by lexicographic member comparison. -/
def zleb (a b : String × Int) : Prop :=
  a.2 < b.2 ∨ (a.2 = b.2 ∧ listCharLeb a.1.data b.1.data = true)

instance : DecidableRel zleb := fun a b => by
  unfold zleb; infer_instance

/-- Models `redis.zrangebyscore 'timers:queue' min max`: entries with
`min ≤ score ≤ max`, ordered by (score, member); only members returned. -/
def zrangebyscore (q : List (String × Int)) (min max : Int) : List String :=
  ((q.filter (fun e => decide (min ≤ e.2) && decide (e.2 ≤ max))).insertionSort zleb).map (·.1)

-- ----------------- The system state -----------------

/-- Delivery outcome of one `sendMessage` call: the transport accepted the
message, or a retry was scheduled via `setTimeout`, or retries were
exhausted.  The JS return value `true` corresponds to `delivered`. -/
inductive SendOutcome where
  | delivered
  | retryScheduled
  | exhausted
deriving DecidableEq, Repr

structure Sys where
  records : List ((String × String) × StoredCell)
  queue : List (String × Int)
  retries : List ((String × String) × Nat)
  /-- retries scheduled with `setTimeout` and not yet fired:
  `(channelId, timerType, message)`. -/
  pending : List (String × String × String)
  /-- log of every `channel.send` attempt: `(channelId, message)`. -/
  attempts : List (String × String)
  /-- log of the successful `channel.send` calls. -/
  sent : List (String × String)
deriving Repr

def Sys.empty : Sys := ⟨[], [], [], [], [], []⟩

-- ----------------- Redis helper functions (src/index.js 70-145) -----------------

/-- Models `setTimerInRedis(channelId, timerType, targetTime)`: store the JSON
record and add the member to the sorted set with `targetTime` as score.
`setAt: Date.now()` is the `now` parameter. -/
def setTimerInRedis (s : Sys) (channelId timerType : String) (targetTime now : Int) : Sys :=
  { s with
    records := setA s.records (channelId, timerType)
      (.record ⟨targetTime, now, channelId, timerType⟩),
    queue := zadd s.queue targetTime (memberKey channelId timerType) }

/-- Models `getTimerFromRedis`: parse the stored JSON and return its `targetTime`;
on a `JSON.parse` failure fall back to `parseInt(value)` (old plain-timestamp
format).  Note a JSON value without a `targetTime` property yields
`undefined`, not the fallback. -/
def getTimerFromRedis (s : Sys) (channelId timerType : String) : GetNum :=
  match getA s.records (channelId, timerType) with
  | none => .absent
  | some (.record d) => .num d.targetTime
  | some .jsonNoTarget => .undef
  | some (.nonJson str) =>
    match jsParseInt str with
    | some n => .num n
    | none => .nan

/-- The object `getTimerDataFromRedis` hands to `checkTimers`: only the
`targetTime`/`setAt` fields are consumed there.  `targetTime = none` stands
for the JS `undefined`/`NaN` cases (both falsy and not `> now`). -/
structure JTimerData where
  targetTime : Option Int
  setAt : Option Int
deriving DecidableEq, Repr

/-- Models `getTimerDataFromRedis`: parse the stored JSON; on parse failure build
the fallback object `{targetTime: parseInt(value), setAt: null, ...}`. -/
def getTimerDataFromRedis (s : Sys) (channelId timerType : String) : Option JTimerData :=
  match getA s.records (channelId, timerType) with
  | none => none
  | some (.record d) => some ⟨some d.targetTime, some d.setAt⟩
  | some .jsonNoTarget => some ⟨none, none⟩
  | some (.nonJson str) => some ⟨jsParseInt str, none⟩

/-- Models `clearTimerFromRedis`: delete the record key and remove the member from
the sorted set. -/
def clearTimerFromRedis (s : Sys) (channelId timerType : String) : Sys :=
  { s with
    records := delA s.records (channelId, timerType),
    queue := zrem s.queue (memberKey channelId timerType) }

/-- Models `getRetryCount`: the counter value, defaulting to 0 when absent. -/
def getRetryCount (s : Sys) (channelId timerType : String) : Nat :=
  match getA s.retries (channelId, timerType) with
  | some n => n
  | none => 0

/-- Models `incrementRetryCount` (`redis.incr`; the 1-hour `expire` refresh is
time-based state not modelled — counter expiry is equivalent to the key
being absent, which the `none ↦ 0` default of `getRetryCount` covers). -/
def incrementRetryCount (s : Sys) (channelId timerType : String) : Sys :=
  { s with retries := setA s.retries (channelId, timerType) (getRetryCount s channelId timerType + 1) }

/-- Models `clearRetryCount`. -/
def clearRetryCount (s : Sys) (channelId timerType : String) : Sys :=
  { s with retries := delA s.retries (channelId, timerType) }

-- ----------------- Delivery (src/index.js 228-253) -----------------

/-- Models `sendMessage(channel, message, channelId, timerType)` for one transport
attempt whose success is `ok` (the channel object is represented by its
`channelId`).  On success the retry counter is cleared; on failure with
`retryCount < MAX_RETRY_ATTEMPTS` the counter is incremented and an
identical resend is scheduled (`setTimeout`, recorded in `pending`);
otherwise the timer and the counter are cleared.  The JS boolean return is
`outcome = delivered`. -/
def sendMessage (ok : Bool) (s : Sys) (message channelId timerType : String) :
    Sys × SendOutcome :=
  let s := { s with attempts := s.attempts ++ [(channelId, message)] }
  if ok then
    (clearRetryCount { s with sent := s.sent ++ [(channelId, message)] } channelId timerType,
     .delivered)
  else
    let retryCount := getRetryCount s channelId timerType
    if retryCount < MAX_RETRY_ATTEMPTS then
      ({ incrementRetryCount s channelId timerType with
         pending := s.pending ++ [(channelId, timerType, message)] },
       .retryScheduled)
    else
      (clearRetryCount (clearTimerFromRedis s channelId timerType) channelId timerType,
       .exhausted)

/-- Remove the first occurrence of a scheduled retry task (a `setTimeout`
callback fires exactly once). -/
def removeFirstTask : List (String × String × String) → (String × String × String) →
    List (String × String × String)
  | [], _ => []
  | t :: ts, x => if t = x then ts else t :: removeFirstTask ts x

/-- The chain `sendMessage` → scheduled retry fires → `sendMessage` → …,
driven by the per-attempt transport outcomes `oks`.  A fired retry is
removed from `pending` before it reruns `sendMessage`; the chain stops on
delivery or exhaustion (no retry scheduled then). -/
def runSend : List Bool → Sys → String → String → String → Sys
  | [], s, _, _, _ => s
  | ok :: rest, s, message, channelId, timerType =>
    match sendMessage ok s message channelId timerType with
    | (s1, .retryScheduled) =>
      runSend rest
        { s1 with pending := removeFirstTask s1.pending (channelId, timerType, message) }
        message channelId timerType
    | (s1, _) => s1

-- ----------------- Utility functions (src/index.js 148-205) -----------------

/-- JS `Number(s)` as applied to the colon-separated components of a
cooldown string: the empty/whitespace string converts to 0, a string of
decimal digits (optionally surrounded by whitespace) to its value, and
anything else (letters, embedded spaces, …) to `NaN` (`none`). -/
def jsNumber (s : List Char) : Option Int :=
  let t := s.dropWhile Char.isWhitespace
  let core := t.takeWhile (fun c => !c.isWhitespace)
  let tail := t.dropWhile (fun c => !c.isWhitespace)
  if t.isEmpty then some 0
  else if core.all Char.isDigit && tail.all Char.isWhitespace && !core.isEmpty then
    some ((core.foldl (fun a c => a * 10 + (c.toNat - '0'.toNat)) 0 : Nat) : Int)
  else none

/-- Models `parseCooldown`: strip `*` (`replace(/\*/g, '')`), trim, split on
`:`, convert each component with `Number`, read the components right-to-left
as seconds, minutes, hours, skipping non-finite (`NaN`) components. -/
def parseCooldown (cooldownStr : String) : Int :=
  let parts :=
    (splitOnChar ':' (jsTrim (cooldownStr.data.filter (fun c => decide (c ≠ '*'))))).map jsNumber
      |>.reverse
  let comp : Nat → Int → Int := fun i mult =>
    match parts.get? i with
    | some (some v) => v * mult
    | _ => 0
  comp 0 1000 + comp 1 (60 * 1000) + comp 2 (60 * 60 * 1000)

/-- Models `formatRemaining`. -/
def formatRemaining (ms : Int) : String :=
  if ms ≤ 0 then "0s"
  else
    let n := ms.toNat
    let hrs := n / 3600000
    let mins := (n % 3600000) / 60000
    let secs := (n % 60000) / 1000
    (if hrs > 0 then toString hrs ++ "h " else "") ++
    (if mins > 0 then toString mins ++ "m " else "") ++
    toString secs ++ "s"

-- `parseHumanDuration` scans the lowercased text with the regex
-- /(\d+(?:\.\d+)?)\s*(hours?|hrs?|h|minutes?|mins?|m|seconds?|secs?|s)/g
-- summing Math.round(value * unitMs) per match.  The scanner below
-- reproduces the regex engine: at each index it attempts
-- digits, optional fraction, whitespace, then the alternation in its
-- leftmost-greedy order; a failed attempt advances one character.

/-- The unit alternation of the regex, in match-priority order, with the
millisecond multiplier applied per unit. -/
def unitAlternatives : List (List Char × Nat) :=
  [("hours".data, 3600000), ("hour".data, 3600000), ("hrs".data, 3600000),
   ("hr".data, 3600000), ("h".data, 3600000),
   ("minutes".data, 60000), ("minute".data, 60000), ("mins".data, 60000),
   ("min".data, 60000), ("m".data, 60000),
   ("seconds".data, 1000), ("second".data, 1000), ("secs".data, 1000),
   ("sec".data, 1000), ("s".data, 1000)]

def digitsVal (cs : List Char) : Nat :=
  cs.foldl (fun a c => a * 10 + (c.toNat - '0'.toNat)) 0

/-- Models `Math.round(x)` for `x = p / q` with `q > 0`: floor(x + 1/2), i.e.
half-way cases round toward +∞. -/
def mathRound (p : Int) (q : Int) : Int :=
  Int.fdiv (2 * p + q) (2 * q)

/-- One regex match attempt starting at `cs` (whose head is a digit):
`\d+` then optional `\.\d+` then `\s*` then the unit alternation.  Returns
the rounded millisecond contribution and the rest of the input after the
match, or `none` when no alternative matches. -/
def tryMatchToken (cs : List Char) : Option (Nat × List Char) :=
  let intDigits := cs.takeWhile Char.isDigit
  let rest1 := cs.dropWhile Char.isDigit
  let fracAndRest : List Char × List Char :=
    match rest1 with
    | '.' :: d :: _ =>
      if d.isDigit then
        ((rest1.drop 1).takeWhile Char.isDigit, (rest1.drop 1).dropWhile Char.isDigit)
      else ([], rest1)
    | _ => ([], rest1)
  let frac := fracAndRest.1
  let rest2 := fracAndRest.2
  let rest3 := rest2.dropWhile Char.isWhitespace
  match unitAlternatives.find? (fun u => u.1.isPrefixOf rest3) with
  | none => none
  | some u =>
    let den : Nat := 10 ^ frac.length
    let p : Nat := (digitsVal intDigits * den + digitsVal frac) * u.2
    some (((2 * p + den) / (2 * den) : Nat), rest3.drop u.1.length)

/-- The global regex scan: try a match at each index (only indices holding a
digit can start one), restart one character later on failure, continue after
the matched text on success; sum the contributions.  `fuel` bounds the
recursion; each step consumes at least one character, so `fuel = cs.length`
is exact. -/
def scanTokens : Nat → List Char → Nat
  | 0, _ => 0
  | _, [] => 0
  | fuel + 1, c :: rest =>
    if c.isDigit then
      match tryMatchToken (c :: rest) with
      | some (ms, rest1) => ms + scanTokens fuel rest1
      | none => scanTokens fuel rest
    else scanTokens fuel rest

/-- JS `parseFloat(s)`: optional sign, digits with optional fraction (at
least one digit overall); as a triple (negative?, numerator, denominator),
`none` for `NaN`. -/
def jsParseFloat (s : String) : Option (Bool × Nat × Nat) :=
  let cs := s.data.dropWhile Char.isWhitespace
  let signed : Bool × List Char :=
    match cs with
    | '-' :: rest => (true, rest)
    | '+' :: rest => (false, rest)
    | _ => (false, cs)
  let intDigits := signed.2.takeWhile Char.isDigit
  let rest1 := signed.2.dropWhile Char.isDigit
  let frac : List Char :=
    match rest1 with
    | '.' :: rest => rest.takeWhile Char.isDigit
    | _ => []
  if intDigits.isEmpty && frac.isEmpty then none
  else some (signed.1, digitsVal intDigits * 10 ^ frac.length + digitsVal frac, 10 ^ frac.length)

/-- Models `parseHumanDuration(text)`: lowercase, scan the `<number><unit>` tokens
and sum them; when that yields 0, fall back to `parseFloat(text)` read as
minutes. -/
def parseHumanDuration (text : String) : Int :=
  let t := (jsToLower text).data
  let ms : Int := (scanTokens t.length t : Nat)
  if ms = 0 then
    match jsParseFloat (jsToLower text) with
    | none => 0
    | some (neg, p, q) =>
      mathRound ((if neg then -(p : Int) else (p : Int)) * 60000) (q : Int)
  else ms

/-- Case-insensitive substring test modelling `/now/i.test(timeStr)`. -/
def containsNow (s : String) : Bool :=
  ((jsToLower s).data).tails.any (fun t => "now".data.isPrefixOf t)

/-- Models `absoluteFromParts(timeStr, ts)`: a present epoch capture (a digit
string, always truthy) wins and is scaled to ms; a string containing
`now` maps to the current instant; otherwise the parsed cooldown is added
to the current instant. -/
def absoluteFromParts (timeStr : String) (ts : Option Nat) (now : Int) : Int :=
  match ts with
  | some t => (t : Int) * 1000
  | none => if containsNow timeStr then now else now + parseCooldown timeStr

/-- Models `formatTimerStatus`. -/
def formatTimerStatus (nextTime : Option Int) (now : Int) : String :=
  match nextTime with
  | none => "No active timer"
  | some t =>
    let remaining := t - now
    if remaining ≤ 0 then "Ready now!" else formatRemaining remaining

-- ----------------- Timer management (src/index.js 208-226) -----------------

/-- Models `setTimer(channelId, timerType, targetTime, channel, notify)`.  The
transport outcome of the (at most one) `sendMessage` call is `ok`.  When
the target is already due (`delay ≤ 0`) the ready message is sent and the
timer cleared immediately — note the clear happens regardless of the send
outcome, and the `notify` confirmation branch is never reached. -/
def setTimer (ok : Bool) (s : Sys) (channelId timerType : String)
    (targetTime now : Int) (notify : Bool) : Sys :=
  let isRescue := timerType = "rescue"
  let readyMsg := if isRescue then MESSAGES.rescueReady else MESSAGES.cardPullReady
  let s1 := setTimerInRedis s channelId timerType targetTime now
  let delay := targetTime - now
  if delay ≤ 0 then
    clearTimerFromRedis (sendMessage ok s1 readyMsg channelId timerType).1 channelId timerType
  else if notify then
    let setMsg := (if isRescue then MESSAGES.rescueSet else MESSAGES.cardPullSet)
      (formatRemaining delay)
    (sendMessage ok s1 setMsg channelId timerType).1
  else s1

-- ----------------- Timer checker (src/index.js 264-323) -----------------

/-- Outcome of `client.channels.fetch` + `channel.send` for one pair during
a tick: the fetch succeeded and the send succeeded or failed, or the fetch
threw Unknown Channel (code 10003), or it threw something else. -/
inductive ChanOutcome where
  | sendOk
  | sendFail
  | unknownChannel
  | fetchErrOther
deriving DecidableEq, Repr

/-- Models `timerKey.split(':')` destructured into its first two components. -/
def splitMember (member : String) : String × String :=
  match splitOnChar ':' member.data with
  | [] => ("", "")
  | [c] => (String.mk c, "")
  | c :: k :: _ => (String.mk c, String.mk k)

/-- The body of the `for (const timerKey of dueTimers)` loop in
`checkTimers`: re-fetch the record (missing/falsy `targetTime` → clean up),
skip if re-armed to the future, otherwise fetch the channel and attempt
delivery, clearing the timer only when `sendMessage` returned `true`
(or when the channel no longer exists). -/
def processTimer (now : Int) (oc : ChanOutcome) (s : Sys) (member : String) : Sys :=
  let cd := splitMember member
  let channelId := cd.1
  let timerType := cd.2
  match getTimerDataFromRedis s channelId timerType with
  | none => clearTimerFromRedis s channelId timerType
  | some td =>
    match td.targetTime with
    | none => clearTimerFromRedis s channelId timerType
    | some targetTime =>
      if targetTime = 0 then clearTimerFromRedis s channelId timerType
      else if targetTime > now then s
      else
        match oc with
        | .unknownChannel => clearTimerFromRedis s channelId timerType
        | .fetchErrOther => s
        | .sendOk | .sendFail =>
          let message := if timerType = "rescue" then MESSAGES.rescueReady
            else MESSAGES.cardPullReady
          match sendMessage (oc = .sendOk) s message channelId timerType with
          | (s1, .delivered) => clearTimerFromRedis s1 channelId timerType
          | (s1, _) => s1

/-- Models `checkTimers()`: snapshot the due members (`zrangebyscore 0 now`) and
process each in order.  `outcomeOf` gives the per-member transport result
for this tick. -/
def checkTimers (now : Int) (outcomeOf : String → ChanOutcome) (s : Sys) : Sys :=
  (zrangebyscore s.queue 0 now).foldl (fun acc m => processTimer now (outcomeOf m) acc m) s

-- ----------------- Association-list lemmas -----------------

theorem getA_delA_self {β : Type} (l : List ((String × String) × β)) (k : String × String) :
    getA (delA l k) k = none := by
  induction l with
  | nil => rfl
  | cons e t ih =>
    by_cases h : e.1 = k
    · simpa [delA, List.filter_cons, h] using ih
    · simpa [delA, List.filter_cons, h, getA] using ih

theorem getA_append {β : Type} (l1 l2 : List ((String × String) × β)) (k : String × String) :
    getA (l1 ++ l2) k = match getA l1 k with
      | some v => some v
      | none => getA l2 k := by
  induction l1 with
  | nil => rfl
  | cons e t ih =>
    by_cases h : e.1 = k
    · simp [getA, h]
    · simpa [getA, h] using ih

theorem getA_setA_self {β : Type} (l : List ((String × String) × β)) (k : String × String) (v : β) :
    getA (setA l k v) k = some v := by
  unfold setA
  rw [getA_append, getA_delA_self]
  simp [getA]

theorem not_mem_queue_filter_ne (q : List (String × Int)) (m : String) (x : Int) :
    (m, x) ∉ q.filter (fun e => decide (e.1 ≠ m)) := by
  intro hmem
  have := List.of_mem_filter hmem
  simp at this

theorem filter_eq_after_filter_ne (q : List (String × Int)) (m : String) :
    ((q.filter (fun e => decide (e.1 ≠ m))).filter (fun e => decide (e.1 = m))) = [] := by
  induction q with
  | nil => rfl
  | cons e t ih =>
    by_cases h : e.1 = m
    · simp [List.filter_cons, h, ih]
    · simp [List.filter_cons, h, ih]

theorem getRetryCount_clearRetryCount (s : Sys) (c k : String) :
    getRetryCount (clearRetryCount s c k) c k = 0 := by
  simp [getRetryCount, clearRetryCount, getA_delA_self]

theorem getA_retries_clearRetryCount (s : Sys) (c k : String) :
    getA (clearRetryCount s c k).retries (c, k) = none := by
  simp [clearRetryCount, getA_delA_self]

theorem getRetryCount_incrementRetryCount (s : Sys) (c k : String) :
    getRetryCount (incrementRetryCount s c k) c k = getRetryCount s c k + 1 := by
  simp [getRetryCount, incrementRetryCount, getA_setA_self]

theorem removeFirstTask_append_self (l : List (String × String × String))
    (x : String × String × String) (h : x ∉ l) :
    removeFirstTask (l ++ [x]) x = l := by
  induction l with
  | nil => simp [removeFirstTask]
  | cons e t ih =>
    have he : e ≠ x := by rintro rfl; exact h (List.mem_cons_self _ _)
    have ht : x ∉ t := fun hx => h (List.mem_cons_of_mem _ hx)
    simp [removeFirstTask, he, ih ht]

-- ----------------- Sorted-set order lemmas -----------------

theorem listCharLeb_total : ∀ as bs : List Char,
    listCharLeb as bs = true ∨ listCharLeb bs as = true := by
  intro as
  induction as with
  | nil => intro bs; left; rfl
  | cons a as ih =>
    intro bs
    cases bs with
    | nil => right; rfl
    | cons b bs =>
      by_cases h1 : a.val.toNat < b.val.toNat
      · left; simp [listCharLeb, h1]
      · by_cases h2 : b.val.toNat < a.val.toNat
        · right; simp [listCharLeb, h2]
        · rcases ih bs with h | h
          · left; simp [listCharLeb, h1, h2, h]
          · right; simp [listCharLeb, h1, h2, h]

theorem listCharLeb_trans : ∀ as bs cs : List Char,
    listCharLeb as bs = true → listCharLeb bs cs = true → listCharLeb as cs = true := by
  intro as
  induction as with
  | nil => intro bs cs _ _; rfl
  | cons a as ih =>
    intro bs cs h1 h2
    cases bs with
    | nil => simp [listCharLeb] at h1
    | cons b bs =>
      cases cs with
      | nil => simp [listCharLeb] at h2
      | cons c cs =>
        unfold listCharLeb at h1 h2 ⊢
        split_ifs at h1 h2 ⊢ with g1 g2 g3 g4 g5 g6 <;>
          first
          | rfl
          | omega
          | (exact ih bs cs h1 h2)

instance : IsTotal (String × Int) zleb := ⟨by
  intro a b
  rcases lt_trichotomy a.2 b.2 with h | h | h
  · exact Or.inl (Or.inl h)
  · rcases listCharLeb_total a.1.data b.1.data with hc | hc
    · exact Or.inl (Or.inr ⟨h, hc⟩)
    · exact Or.inr (Or.inr ⟨h.symm, hc⟩)
  · exact Or.inr (Or.inl h)⟩

instance : IsTrans (String × Int) zleb := ⟨by
  intro a b c hab hbc
  rcases hab with h1 | ⟨h1, h1c⟩
  · rcases hbc with h2 | ⟨h2, _⟩
    · exact Or.inl (lt_trans h1 h2)
    · exact Or.inl (h2 ▸ h1)
  · rcases hbc with h2 | ⟨h2, h2c⟩
    · exact Or.inl (h1 ▸ h2)
    · exact Or.inr ⟨h1.trans h2, listCharLeb_trans _ _ _ h1c h2c⟩⟩

-- ----------------- Step lemmas for sendMessage and runSend -----------------

theorem getRetryCount_with_attempts (s : Sys) (x : List (String × String)) (c k : String) :
    getRetryCount { s with attempts := x } c k = getRetryCount s c k := rfl

theorem getRetryCount_mk (re : List ((String × String) × StoredCell)) (q : List (String × Int))
    (rt : List ((String × String) × Nat)) (p : List (String × String × String))
    (a se : List (String × String)) (c k : String) :
    getRetryCount (Sys.mk re q rt p a se) c k =
      (match getA rt (c, k) with
       | some n => n
       | none => 0) := rfl

theorem sendMessage_true_eq (s : Sys) (m c k : String) :
    sendMessage true s m c k =
      (clearRetryCount { s with attempts := s.attempts ++ [(c, m)],
                                sent := s.sent ++ [(c, m)] } c k, .delivered) := by
  simp [sendMessage]

theorem sendMessage_false_small (s : Sys) (m c k : String)
    (h : getRetryCount s c k < MAX_RETRY_ATTEMPTS) :
    sendMessage false s m c k =
      ({ s with attempts := s.attempts ++ [(c, m)],
                retries := setA s.retries (c, k) (getRetryCount s c k + 1),
                pending := s.pending ++ [(c, k, m)] }, .retryScheduled) := by
  simp [sendMessage, getRetryCount_with_attempts, h, incrementRetryCount]

theorem sendMessage_false_exhausted (s : Sys) (m c k : String)
    (h : ¬ getRetryCount s c k < MAX_RETRY_ATTEMPTS) :
    sendMessage false s m c k =
      (clearRetryCount
        (clearTimerFromRedis { s with attempts := s.attempts ++ [(c, m)] } c k) c k,
       .exhausted) := by
  simp [sendMessage, getRetryCount_with_attempts, h]

theorem runSend_fail_progress (s : Sys) (msg c k : String) (rest : List Bool)
    (h : getRetryCount s c k < MAX_RETRY_ATTEMPTS) :
    runSend (false :: rest) s msg c k =
      runSend rest
        { s with attempts := s.attempts ++ [(c, msg)],
                 retries := setA s.retries (c, k) (getRetryCount s c k + 1),
                 pending := removeFirstTask (s.pending ++ [(c, k, msg)]) (c, k, msg) }
        msg c k := by
  rw [runSend, sendMessage_false_small s msg c k h]

theorem runSend_fail_exhaust (s : Sys) (msg c k : String) (rest : List Bool)
    (h : ¬ getRetryCount s c k < MAX_RETRY_ATTEMPTS) :
    runSend (false :: rest) s msg c k =
      clearRetryCount
        (clearTimerFromRedis { s with attempts := s.attempts ++ [(c, msg)] } c k) c k := by
  rw [runSend, sendMessage_false_exhausted s msg c k h]

-- ----------------- Claim theorems -----------------

/-- C1: on persistent transport failure, delivery for a pair with a fresh
retry counter is attempted exactly four times (the initial attempt plus
`MAX_RETRY_ATTEMPTS = 3` retries), regardless of how many further outcomes
the transport would produce; after the final failed attempt the timer
record, its index entry and the retry counter are all cleared and no retry
task for the pair remains scheduled. -/
theorem c1_retry_exhaustion (s : Sys) (c k msg : String) (rest : List Bool)
    (h0 : getRetryCount s c k = 0)
    (hp : (c, k, msg) ∉ s.pending) :
    getA (runSend (false :: false :: false :: false :: rest) s msg c k).records (c, k) = none ∧
    (∀ x : Int,
      (memberKey c k, x) ∉ (runSend (false :: false :: false :: false :: rest) s msg c k).queue) ∧
    getA (runSend (false :: false :: false :: false :: rest) s msg c k).retries (c, k) = none ∧
    (runSend (false :: false :: false :: false :: rest) s msg c k).pending = s.pending ∧
    (runSend (false :: false :: false :: false :: rest) s msg c k).attempts =
      s.attempts ++ [(c, msg), (c, msg), (c, msg), (c, msg)] := by
  obtain ⟨re, q, rt, p, a, se⟩ := s
  simp only [getRetryCount_mk] at h0
  simp only at hp
  simp [runSend_fail_progress, runSend_fail_exhaust, getRetryCount_mk, getA_setA_self, h0,
    removeFirstTask_append_self _ _ hp, MAX_RETRY_ATTEMPTS,
    clearRetryCount, clearTimerFromRedis, getA_delA_self, zrem, not_mem_queue_filter_ne]

/-- Witness for C1 at a concrete state. -/
theorem c1_retry_exhaustion_witness :
    getRetryCount Sys.empty "c1" "rescue" = 0 ∧
    ("c1", "rescue", "msg") ∉ Sys.empty.pending ∧
    (getA (runSend [false, false, false, false] Sys.empty "msg" "c1" "rescue").records
        ("c1", "rescue") = none ∧
     (∀ x : Int, (memberKey "c1" "rescue", x) ∉
        (runSend [false, false, false, false] Sys.empty "msg" "c1" "rescue").queue) ∧
     getA (runSend [false, false, false, false] Sys.empty "msg" "c1" "rescue").retries
        ("c1", "rescue") = none ∧
     (runSend [false, false, false, false] Sys.empty "msg" "c1" "rescue").pending =
        Sys.empty.pending ∧
     (runSend [false, false, false, false] Sys.empty "msg" "c1" "rescue").attempts =
        Sys.empty.attempts ++ [("c1", "msg"), ("c1", "msg"), ("c1", "msg"), ("c1", "msg")]) :=
  ⟨by decide, by decide,
   c1_retry_exhaustion Sys.empty "c1" "rescue" "msg" [] (by decide) (by decide)⟩

/-- C2 (counterexample): the due-timer scan does NOT break score ties by
insertion order into the index.  Inserting member `2:rescue` first and
`1:rescue` second, both with score 100, `zrangebyscore` returns
`1:rescue` before `2:rescue` (lexicographic member order), not the
insertion order `2:rescue`, `1:rescue`. -/
theorem c2_tie_order_counterexample :
    zrangebyscore (zadd (zadd [] 100 "2:rescue") 100 "1:rescue") 0 100 =
      ["1:rescue", "2:rescue"] ∧
    zrangebyscore (zadd (zadd [] 100 "2:rescue") 100 "1:rescue") 0 100 ≠
      ["2:rescue", "1:rescue"] := by
  constructor
  · rfl
  · decide

/-- C2 (amended): on an index whose scores are all nonnegative (true of
every reachable state), `DueBefore(now)` = `zrangebyscore 0 now` returns
exactly the members whose `targetTime ≤ now` — never one with
`targetTime > now` — in non-decreasing `targetTime` order, with score ties
broken by lexicographic member-string order (not insertion order). -/
theorem c2_dueBefore_sorted (q : List (String × Int)) (now : Int)
    (hscores : ∀ e ∈ q, 0 ≤ e.2) :
    zrangebyscore q 0 now =
      ((q.filter (fun e => decide (0 ≤ e.2) && decide (e.2 ≤ now))).insertionSort zleb).map
        (·.1) ∧
    (∀ e : String × Int,
      e ∈ (q.filter (fun e => decide (0 ≤ e.2) && decide (e.2 ≤ now))).insertionSort zleb ↔
        e ∈ q ∧ e.2 ≤ now) ∧
    ((q.filter (fun e => decide (0 ≤ e.2) && decide (e.2 ≤ now))).insertionSort zleb).Pairwise
      zleb := by
  refine ⟨rfl, ?_, ?_⟩
  · intro e
    rw [List.mem_insertionSort, List.mem_filter]
    constructor
    · rintro ⟨hq, hf⟩
      simp only [Bool.and_eq_true, decide_eq_true_eq] at hf
      exact ⟨hq, hf.2⟩
    · rintro ⟨hq, hle⟩
      refine ⟨hq, ?_⟩
      simp only [Bool.and_eq_true, decide_eq_true_eq]
      exact ⟨hscores e hq, hle⟩
  · exact List.sorted_insertionSort zleb _

/-- Witness for C2 (amended) on a concrete two-entry index with a tie. -/
theorem c2_dueBefore_sorted_witness :
    (∀ e ∈ ([("2:rescue", (100 : Int)), ("1:rescue", 100)] : List (String × Int)), 0 ≤ e.2) ∧
    (zrangebyscore [("2:rescue", (100 : Int)), ("1:rescue", 100)] 0 100 =
      (([("2:rescue", (100 : Int)), ("1:rescue", 100)].filter
          (fun e => decide (0 ≤ e.2) && decide (e.2 ≤ 100))).insertionSort zleb).map (·.1) ∧
     (∀ e : String × Int,
       e ∈ ([("2:rescue", (100 : Int)), ("1:rescue", 100)].filter
          (fun e => decide (0 ≤ e.2) && decide (e.2 ≤ 100))).insertionSort zleb ↔
         e ∈ ([("2:rescue", (100 : Int)), ("1:rescue", 100)] : List (String × Int)) ∧
           e.2 ≤ 100) ∧
     (([("2:rescue", (100 : Int)), ("1:rescue", 100)].filter
         (fun e => decide (0 ≤ e.2) && decide (e.2 ≤ 100))).insertionSort zleb).Pairwise zleb) :=
  ⟨by decide, c2_dueBefore_sorted [("2:rescue", 100), ("1:rescue", 100)] 100 (by decide)⟩

/-- C3: `Set(s,k,t1)` followed by `Set(s,k,t2)` leaves exactly one live
record for the pair (holding `t2`) and exactly one index entry for the
pair's member (scored `t2`); at every observable point of the second set —
after the first set, between its record write and its index `zadd`, and
after it — the index never holds entries at both `t1` and `t2` for the
pair. -/
theorem c3_supersession (s : Sys) (c k : String) (t1 t2 now1 now2 : Int) (h : t1 ≠ t2) :
    getA (setTimerInRedis (setTimerInRedis s c k t1 now1) c k t2 now2).records (c, k) =
      some (.record ⟨t2, now2, c, k⟩) ∧
    (setTimerInRedis (setTimerInRedis s c k t1 now1) c k t2 now2).queue.filter
      (fun e => decide (e.1 = memberKey c k)) = [(memberKey c k, t2)] ∧
    ¬((memberKey c k, t1) ∈ (setTimerInRedis s c k t1 now1).queue ∧
      (memberKey c k, t2) ∈ (setTimerInRedis s c k t1 now1).queue) ∧
    ¬((memberKey c k, t1) ∈
        ({ setTimerInRedis s c k t1 now1 with
           records := setA (setTimerInRedis s c k t1 now1).records (c, k)
             (.record ⟨t2, now2, c, k⟩) } : Sys).queue ∧
      (memberKey c k, t2) ∈
        ({ setTimerInRedis s c k t1 now1 with
           records := setA (setTimerInRedis s c k t1 now1).records (c, k)
             (.record ⟨t2, now2, c, k⟩) } : Sys).queue) ∧
    ¬((memberKey c k, t1) ∈ (setTimerInRedis (setTimerInRedis s c k t1 now1) c k t2 now2).queue ∧
      (memberKey c k, t2) ∈
        (setTimerInRedis (setTimerInRedis s c k t1 now1) c k t2 now2).queue) := by
  refine ⟨?_, ?_, ?_, ?_, ?_⟩
  · exact getA_setA_self _ _ _
  · show ((zadd (zadd s.queue t1 (memberKey c k)) t2 (memberKey c k)).filter
      (fun e => decide (e.1 = memberKey c k))) = _
    simp [zadd, List.filter_append, filter_eq_after_filter_ne]
  · rintro ⟨-, h2⟩
    rcases List.mem_append.mp h2 with hl | hr
    · exact not_mem_queue_filter_ne _ _ _ hl
    · simp at hr; omega
  · rintro ⟨-, h2⟩
    rcases List.mem_append.mp h2 with hl | hr
    · exact not_mem_queue_filter_ne _ _ _ hl
    · simp at hr; omega
  · rintro ⟨h1, -⟩
    rcases List.mem_append.mp h1 with hl | hr
    · exact not_mem_queue_filter_ne _ _ _ hl
    · simp at hr; omega

/-- Witness for C3 at a concrete pair and times. -/
theorem c3_supersession_witness :
    (100 : Int) ≠ 200 ∧
    (getA (setTimerInRedis (setTimerInRedis Sys.empty "c1" "rescue" 100 1) "c1" "rescue" 200 2).records
        ("c1", "rescue") = some (.record ⟨200, 2, "c1", "rescue"⟩) ∧
     (setTimerInRedis (setTimerInRedis Sys.empty "c1" "rescue" 100 1) "c1" "rescue" 200 2).queue.filter
        (fun e => decide (e.1 = memberKey "c1" "rescue")) = [(memberKey "c1" "rescue", 200)] ∧
     ¬((memberKey "c1" "rescue", 100) ∈ (setTimerInRedis Sys.empty "c1" "rescue" 100 1).queue ∧
       (memberKey "c1" "rescue", 200) ∈ (setTimerInRedis Sys.empty "c1" "rescue" 100 1).queue) ∧
     ¬((memberKey "c1" "rescue", 100) ∈
         ({ setTimerInRedis Sys.empty "c1" "rescue" 100 1 with
            records := setA (setTimerInRedis Sys.empty "c1" "rescue" 100 1).records ("c1", "rescue")
              (.record ⟨200, 2, "c1", "rescue"⟩) } : Sys).queue ∧
       (memberKey "c1" "rescue", 200) ∈
         ({ setTimerInRedis Sys.empty "c1" "rescue" 100 1 with
            records := setA (setTimerInRedis Sys.empty "c1" "rescue" 100 1).records ("c1", "rescue")
              (.record ⟨200, 2, "c1", "rescue"⟩) } : Sys).queue) ∧
     ¬((memberKey "c1" "rescue", 100) ∈
         (setTimerInRedis (setTimerInRedis Sys.empty "c1" "rescue" 100 1) "c1" "rescue" 200 2).queue ∧
       (memberKey "c1" "rescue", 200) ∈
         (setTimerInRedis (setTimerInRedis Sys.empty "c1" "rescue" 100 1) "c1" "rescue" 200 2).queue)) :=
  ⟨by decide, c3_supersession Sys.empty "c1" "rescue" 100 200 1 2 (by decide)⟩

/-- C4 (counterexample): delivery attempts for a pair are NOT suppressed
while a retry is in flight.  After a due timer's send fails at tick
`t=250`, a retry task is pending; the next tick (`t=260`) still sees the
pair due and issues another delivery attempt while that retry is pending,
and if the duplicate attempt succeeds, the timer is cleared while the
retry task is still in flight. -/
theorem c4_inflight_counterexample :
    (checkTimers 250 (fun _ => ChanOutcome.sendFail)
        (setTimer true Sys.empty "c1" "rescue" 200 100 false)).pending =
      [("c1", "rescue", MESSAGES.rescueReady)] ∧
    (checkTimers 260 (fun _ => ChanOutcome.sendFail)
        (checkTimers 250 (fun _ => ChanOutcome.sendFail)
          (setTimer true Sys.empty "c1" "rescue" 200 100 false))).attempts =
      (checkTimers 250 (fun _ => ChanOutcome.sendFail)
        (setTimer true Sys.empty "c1" "rescue" 200 100 false)).attempts ++
        [("c1", MESSAGES.rescueReady)] ∧
    getA (checkTimers 260 (fun _ => ChanOutcome.sendOk)
        (checkTimers 250 (fun _ => ChanOutcome.sendFail)
          (setTimer true Sys.empty "c1" "rescue" 200 100 false))).records ("c1", "rescue") =
      none ∧
    (checkTimers 260 (fun _ => ChanOutcome.sendOk)
        (checkTimers 250 (fun _ => ChanOutcome.sendFail)
          (setTimer true Sys.empty "c1" "rescue" 200 100 false))).pending ≠ [] := by
  refine ⟨rfl, rfl, rfl, ?_⟩
  decide

/-- C4 (amended): the true core of the claim — a failed delivery attempt
whose retry budget is not exhausted clears neither the timer record nor its
index entry (the timer is only cleared by `sendMessage` on exhaustion), it
schedules a retry; but no in-flight mark exists, so concurrent duplicate
attempts are not prevented (see the counterexample). -/
theorem c4_no_clear_on_retry (s : Sys) (m c k : String)
    (h : getRetryCount s c k < MAX_RETRY_ATTEMPTS) :
    (sendMessage false s m c k).1.records = s.records ∧
    (sendMessage false s m c k).1.queue = s.queue ∧
    (sendMessage false s m c k).2 = .retryScheduled ∧
    (sendMessage false s m c k).1.pending = s.pending ++ [(c, k, m)] := by
  rw [sendMessage_false_small s m c k h]
  exact ⟨rfl, rfl, rfl, rfl⟩

/-- Witness for C4 (amended) at a concrete state. -/
theorem c4_no_clear_on_retry_witness :
    getRetryCount Sys.empty "c1" "rescue" < MAX_RETRY_ATTEMPTS ∧
    ((sendMessage false Sys.empty "m" "c1" "rescue").1.records = Sys.empty.records ∧
     (sendMessage false Sys.empty "m" "c1" "rescue").1.queue = Sys.empty.queue ∧
     (sendMessage false Sys.empty "m" "c1" "rescue").2 = .retryScheduled ∧
     (sendMessage false Sys.empty "m" "c1" "rescue").1.pending =
       Sys.empty.pending ++ [("c1", "rescue", "m")]) :=
  ⟨by decide, c4_no_clear_on_retry Sys.empty "m" "c1" "rescue" (by decide)⟩

/-- C5 (counterexample): the set/get round-trip fails when `targetTime ≤
now`: `setTimer` then immediately fires and clears the record, so `Get`
returns absent, not a present timer with the given target. -/
theorem c5_roundtrip_counterexample :
    getTimerFromRedis (setTimer true Sys.empty "c1" "rescue" 100 100 false) "c1" "rescue" =
      .absent ∧
    getTimerFromRedis (setTimer true Sys.empty "c1" "rescue" 100 100 false) "c1" "rescue" ≠
      .num 100 := by
  constructor
  · rfl
  · decide

/-- C5 (amended): for a strictly-future target (`now < t`), `Set(s,k,t)`
followed immediately by `Get(s,k)` returns a present timer whose
`targetTime` is `t`. -/
theorem c5_roundtrip_amended (ok : Bool) (s : Sys) (c k : String) (t now : Int)
    (h : now < t) :
    getTimerFromRedis (setTimer ok s c k t now false) c k = .num t := by
  have hd : ¬ (t - now ≤ 0) := by omega
  simp [setTimer, hd, getTimerFromRedis, setTimerInRedis, getA_setA_self]

/-- Witness for C5 (amended) at a concrete future target. -/
theorem c5_roundtrip_amended_witness :
    (100 : Int) < 200 ∧
    getTimerFromRedis (setTimer true Sys.empty "c1" "rescue" 200 100 false) "c1" "rescue" =
      .num 200 :=
  ⟨by decide, c5_roundtrip_amended true Sys.empty "c1" "rescue" 200 100 (by decide)⟩

/-- C6 (counterexample): a stored value that does not match the record
shape is not always discarded: the non-JSON value `"12abc"` is fed to the
`parseInt` fallback and `Get` returns it as timestamp 12 instead of
treating the timer as absent. -/
theorem c6_corrupt_counterexample :
    getTimerFromRedis
      { Sys.empty with records := [(("c", "rescue"), .nonJson "12abc")] } "c" "rescue" =
      .num 12 ∧
    getTimerFromRedis
      { Sys.empty with records := [(("c", "rescue"), .nonJson "12abc")] } "c" "rescue" ≠
      .absent := by
  constructor
  · rfl
  · decide

/-- C6 (amended): `Get` is total (no panic, no propagated parse failure)
and behaves as follows: a missing key is absent; a proper record returns
its `targetTime`; a JSON value without `targetTime` yields `undefined`
(falsy); a non-JSON value is NOT discarded — it goes through the
`parseInt` fallback, yielding its leading integer as a timestamp when one
exists and `NaN` (falsy) otherwise. -/
theorem c6_get_fallback (s : Sys) (c k : String) :
    (getA s.records (c, k) = none → getTimerFromRedis s c k = .absent) ∧
    (∀ d : TimerData, getA s.records (c, k) = some (.record d) →
      getTimerFromRedis s c k = .num d.targetTime) ∧
    (getA s.records (c, k) = some .jsonNoTarget → getTimerFromRedis s c k = .undef) ∧
    (∀ str : String, getA s.records (c, k) = some (.nonJson str) →
      getTimerFromRedis s c k =
        (match jsParseInt str with
         | some n => .num n
         | none => .nan)) := by
  refine ⟨fun h1 => ?_, fun d h1 => ?_, fun h1 => ?_, fun str h1 => ?_⟩ <;>
    simp [getTimerFromRedis, h1]

/-- Witness for C6 (amended), discharging each shape hypothesis at a
concrete store. -/
theorem c6_get_fallback_witness :
    getTimerFromRedis Sys.empty "c" "k" = .absent ∧
    getTimerFromRedis
      { Sys.empty with records := [(("c", "k"), .record ⟨5, 1, "c", "k"⟩)] } "c" "k" =
      .num (5 : Int) ∧
    getTimerFromRedis { Sys.empty with records := [(("c", "k"), .jsonNoTarget)] } "c" "k" =
      .undef ∧
    getTimerFromRedis { Sys.empty with records := [(("c", "k"), .nonJson "zz")] } "c" "k" =
      (match jsParseInt "zz" with
       | some n => .num n
       | none => .nan) :=
  ⟨(c6_get_fallback Sys.empty "c" "k").1 (by decide),
   (c6_get_fallback { Sys.empty with records := [(("c", "k"), .record ⟨5, 1, "c", "k"⟩)] }
      "c" "k").2.1 ⟨5, 1, "c", "k"⟩ (by decide),
   (c6_get_fallback { Sys.empty with records := [(("c", "k"), .jsonNoTarget)] }
      "c" "k").2.2.1 (by decide),
   (c6_get_fallback { Sys.empty with records := [(("c", "k"), .nonJson "zz")] }
      "c" "k").2.2.2 "zz" (by decide)⟩

/-- C7 (counterexample): a due pair whose re-fetched record is absent is
NOT skipped without side effects: the tick cleans it up, removing the
orphan index entry (a store mutation). -/
theorem c7_cleanup_counterexample :
    (checkTimers 100 (fun _ => ChanOutcome.sendOk)
      { Sys.empty with queue := [("c:rescue", 50)] }).queue = [] ∧
    (checkTimers 100 (fun _ => ChanOutcome.sendOk)
      { Sys.empty with queue := [("c:rescue", 50)] }).queue ≠
      ({ Sys.empty with queue := [("c:rescue", 50)] } : Sys).queue := by
  constructor
  · rfl
  · decide

/-- C7 (amended): during a poll tick, a pair whose re-fetched record has a
(nonzero) `targetTime` now in the future is skipped with the state left
exactly unchanged; a pair whose re-fetched record is absent, or is present
with a falsy `targetTime` (`undefined`/`NaN`, here `none`, or `0`), is not
delivered but cleaned up: the resulting state is exactly
`clearTimerFromRedis` of the pair, which deletes the record key and the
index entry while leaving the attempt log, retry counters, pending retries
and sent log untouched. -/
theorem c7_skip_or_cleanup (now : Int) (oc : ChanOutcome) (s : Sys) (member : String) :
    (getTimerDataFromRedis s (splitMember member).1 (splitMember member).2 = none →
      processTimer now oc s member =
        clearTimerFromRedis s (splitMember member).1 (splitMember member).2) ∧
    (∀ td : JTimerData,
      getTimerDataFromRedis s (splitMember member).1 (splitMember member).2 = some td →
      td.targetTime = none ∨ td.targetTime = some 0 →
      processTimer now oc s member =
        clearTimerFromRedis s (splitMember member).1 (splitMember member).2) ∧
    (∀ (td : JTimerData) (tt : Int),
      getTimerDataFromRedis s (splitMember member).1 (splitMember member).2 = some td →
      td.targetTime = some tt → tt ≠ 0 → tt > now →
      processTimer now oc s member = s) ∧
    ((clearTimerFromRedis s (splitMember member).1 (splitMember member).2).attempts =
        s.attempts ∧
     (clearTimerFromRedis s (splitMember member).1 (splitMember member).2).retries =
        s.retries ∧
     (clearTimerFromRedis s (splitMember member).1 (splitMember member).2).pending =
        s.pending ∧
     (clearTimerFromRedis s (splitMember member).1 (splitMember member).2).sent = s.sent) := by
  refine ⟨fun h1 => ?_, fun td h1 h2 => ?_, fun td tt h1 htt hne hfut => ?_,
    rfl, rfl, rfl, rfl⟩
  · simp only [processTimer, h1]
  · rcases td with ⟨tto, sa⟩
    rcases h2 with h2 | h2 <;> simp only at h2 <;> subst h2 <;>
      simp [processTimer, h1]
  · simp [processTimer, h1, htt, hne, hfut]

/-- Witness for C7 (amended), exercising the absent-record cleanup, the
falsy-`targetTime` cleanup (both the `NaN` and the `0` shape), and the
future-target exact no-op at concrete states. -/
theorem c7_skip_or_cleanup_witness :
    (processTimer 100 ChanOutcome.sendOk
        { Sys.empty with queue := [("c:rescue", 50)] } "c:rescue" =
      clearTimerFromRedis { Sys.empty with queue := [("c:rescue", 50)] }
        (splitMember "c:rescue").1 (splitMember "c:rescue").2) ∧
    (processTimer 100 ChanOutcome.sendOk
        { Sys.empty with records := [(("c", "rescue"), .nonJson "zz")],
                         queue := [("c:rescue", 50)] } "c:rescue" =
      clearTimerFromRedis
        { Sys.empty with records := [(("c", "rescue"), .nonJson "zz")],
                         queue := [("c:rescue", 50)] }
        (splitMember "c:rescue").1 (splitMember "c:rescue").2) ∧
    (processTimer 100 ChanOutcome.sendOk
        { Sys.empty with records := [(("c", "rescue"), .record ⟨0, 1, "c", "rescue"⟩)],
                         queue := [("c:rescue", 0)] } "c:rescue" =
      clearTimerFromRedis
        { Sys.empty with records := [(("c", "rescue"), .record ⟨0, 1, "c", "rescue"⟩)],
                         queue := [("c:rescue", 0)] }
        (splitMember "c:rescue").1 (splitMember "c:rescue").2) ∧
    (processTimer 100 ChanOutcome.sendOk
        { Sys.empty with records := [(("c", "rescue"), .record ⟨500, 1, "c", "rescue"⟩)],
                         queue := [("c:rescue", 500)] } "c:rescue" =
      { Sys.empty with records := [(("c", "rescue"), .record ⟨500, 1, "c", "rescue"⟩)],
                       queue := [("c:rescue", 500)] }) :=
  ⟨(c7_skip_or_cleanup 100 ChanOutcome.sendOk
      { Sys.empty with queue := [("c:rescue", 50)] } "c:rescue").1 (by decide),
   (c7_skip_or_cleanup 100 ChanOutcome.sendOk
      { Sys.empty with records := [(("c", "rescue"), .nonJson "zz")],
                       queue := [("c:rescue", 50)] } "c:rescue").2.1
     ⟨none, none⟩ (by decide) (Or.inl rfl),
   (c7_skip_or_cleanup 100 ChanOutcome.sendOk
      { Sys.empty with records := [(("c", "rescue"), .record ⟨0, 1, "c", "rescue"⟩)],
                       queue := [("c:rescue", 0)] } "c:rescue").2.1
     ⟨some 0, some 1⟩ (by decide) (Or.inr rfl),
   (c7_skip_or_cleanup 100 ChanOutcome.sendOk
      { Sys.empty with records := [(("c", "rescue"), .record ⟨500, 1, "c", "rescue"⟩)],
                       queue := [("c:rescue", 500)] } "c:rescue").2.2.1
     ⟨some 500, some 1⟩ 500 (by decide) rfl (by decide) (by decide)⟩

/-- C8 (counterexample): there is no single normalizer accepting both
duration forms: `absoluteFromParts` (the function deriving the absolute
target from a cooldown string and an optional epoch hint) parses only the
colon-delimited form, so on the free-text string
`"3 hours and 31 minutes"` at instant 1000 it yields 1000 (zero advance),
not 1000 + 12660000. -/
theorem c8_freetext_counterexample :
    absoluteFromParts "3 hours and 31 minutes" none 1000 = 1000 ∧
    absoluteFromParts "3 hours and 31 minutes" none 1000 ≠ 1000 + 12660000 := by
  constructor
  · rfl
  · decide

/-- C8 (amended): the two duration forms are handled by two separate
functions on separate input paths: `absoluteFromParts` adds a
colon-delimited duration to the current instant
(`Normalize("1:23:45", null)` at `T` yields `T + 5025000`), while the
free-text form is parsed only by `parseHumanDuration` (used on the
pull-wait path, whose caller adds it to the current instant):
`parseHumanDuration "3 hours and 31 minutes" = 12660000`; fed the
free-text string instead, `absoluteFromParts` adds nothing. -/
theorem c8_normalizer_split (T : Int) :
    absoluteFromParts "1:23:45" none T = T + 5025000 ∧
    parseHumanDuration "3 hours and 31 minutes" = 12660000 ∧
    absoluteFromParts "3 hours and 31 minutes" none T = T := by
  have h1 : parseCooldown "1:23:45" = 5025000 := by decide
  have h2 : parseCooldown "3 hours and 31 minutes" = 0 := by decide
  have h3 : containsNow "1:23:45" = false := by decide
  have h4 : containsNow "3 hours and 31 minutes" = false := by decide
  refine ⟨?_, by decide, ?_⟩
  · simp [absoluteFromParts, h1, h3]
  · simp [absoluteFromParts, h2, h4]

/-- C9: a successful delivery resets the pair's retry counter to 0
whatever its previous value `N`, and the next failed delivery sets it to
1, not `N + 1`. -/
theorem c9_counter_reset (s : Sys) (c k m1 m2 : String) (N : Nat)
    (h : getRetryCount s c k = N) :
    getRetryCount (sendMessage true s m1 c k).1 c k = 0 ∧
    getRetryCount (sendMessage false (sendMessage true s m1 c k).1 m2 c k).1 c k = 1 := by
  obtain ⟨re, q, rt, p, a, se⟩ := s
  constructor
  · rw [sendMessage_true_eq]
    exact getRetryCount_clearRetryCount _ _ _
  · rw [sendMessage_true_eq]
    rw [sendMessage_false_small _ m2 c k (by
      rw [getRetryCount_clearRetryCount]; decide)]
    simp [getRetryCount_mk, clearRetryCount, getRetryCount_clearRetryCount, getA_setA_self,
      getA_delA_self]

/-- Witness for C9 with two prior consecutive failures on record. -/
theorem c9_counter_reset_witness :
    getRetryCount { Sys.empty with retries := [(("c", "k"), 2)] } "c" "k" = 2 ∧
    (getRetryCount
        (sendMessage true { Sys.empty with retries := [(("c", "k"), 2)] } "m1" "c" "k").1
        "c" "k" = 0 ∧
     getRetryCount
        (sendMessage false
          (sendMessage true { Sys.empty with retries := [(("c", "k"), 2)] } "m1" "c" "k").1
          "m2" "c" "k").1 "c" "k" = 1) :=
  ⟨by decide,
   c9_counter_reset { Sys.empty with retries := [(("c", "k"), 2)] } "c" "k" "m1" "m2" 2
     (by decide)⟩

/-- C10: `Set` with an already-due target (`targetTime ≤ now`) attempts
the ready notification immediately (and with a working transport it is
sent), clears both the record and the index entry leaving no live timer
for the pair, and never sends the `timer set` confirmation — the single
attempted message is the ready message even when `notify = true`. -/
theorem c10_immediate_fire (s : Sys) (c k : String) (t now : Int) (notify : Bool)
    (h : t ≤ now) :
    (setTimer true s c k t now notify).attempts =
      s.attempts ++ [(c, if k = "rescue" then MESSAGES.rescueReady else MESSAGES.cardPullReady)] ∧
    (setTimer true s c k t now notify).sent =
      s.sent ++ [(c, if k = "rescue" then MESSAGES.rescueReady else MESSAGES.cardPullReady)] ∧
    getA (setTimer true s c k t now notify).records (c, k) = none ∧
    (∀ x : Int, (memberKey c k, x) ∉ (setTimer true s c k t now notify).queue) := by
  have hd : t - now ≤ 0 := by omega
  refine ⟨?_, ?_, ?_, ?_⟩ <;>
    simp [setTimer, hd, sendMessage_true_eq, clearTimerFromRedis, clearRetryCount,
      setTimerInRedis, getA_delA_self, zrem, not_mem_queue_filter_ne]

/-- Witness for C10 at a concrete already-due card-pull set with
`notify = true`. -/
theorem c10_immediate_fire_witness :
    (100 : Int) ≤ 150 ∧
    ((setTimer true Sys.empty "c1" "cardPull" 100 150 true).attempts =
      Sys.empty.attempts ++
        [("c1", if "cardPull" = "rescue" then MESSAGES.rescueReady else MESSAGES.cardPullReady)] ∧
     (setTimer true Sys.empty "c1" "cardPull" 100 150 true).sent =
      Sys.empty.sent ++
        [("c1", if "cardPull" = "rescue" then MESSAGES.rescueReady else MESSAGES.cardPullReady)] ∧
     getA (setTimer true Sys.empty "c1" "cardPull" 100 150 true).records ("c1", "cardPull") =
       none ∧
     (∀ x : Int,
       (memberKey "c1" "cardPull", x) ∉ (setTimer true Sys.empty "c1" "cardPull" 100 150 true).queue)) :=
  ⟨by decide, c10_immediate_fire Sys.empty "c1" "cardPull" 100 150 true (by decide)⟩
